import Mathlib

/-!
Verification of the `renderable` library (src/renderable/__init__.py), a
tree-based text-generation engine.  The Python classes are shallowly
embedded as one mutual inductive family `Obj` (concrete runtime objects of
the library classes), `Attr` (stored attribute slots, which hold either a
converted renderable or an unconverted raw value), and `Value` (arbitrary
Python values fed to the conversion registry).  Fallible operations return
`Except String` where the Python code can raise; messages are schematic
stand-ins for the exception text.
-/

set_option autoImplicit false

mutual

/-- Concrete runtime objects of the library class hierarchy.  Each
constructor corresponds to one concrete Python class: `HtmlText`,
`HtmlLazyText`, `HtmlNodeList`, `HtmlNode`, `JsText`, `JsLazyText`,
`JsTextNode`, `JsLazyTextNode`, `JsNodeList`, `JsHtmlNode`,
`JsFrozenHtmlNode`, plus `extRenderable` for an object that satisfies the
generic `Renderable` capability without belonging to the markup family
(for example a plain `Text` or a user subclass).  Lazily-computed text
holds its zero-argument producer; the producer may raise, hence the
`Except` codomain. -/
inductive Obj where
  | htmlText (s : String)
  | htmlLazyText (fn : Unit → Except String String)
  | htmlNodeList (nodes : ObjList)
  | htmlNode (element : Obj) (children : Obj) (attrs : AttrList)
  | jsText (s : String)
  | jsLazyText (fn : Unit → Except String String)
  | jsTextNode (s : String)
  | jsLazyTextNode (fn : Unit → Except String String)
  | jsNodeList (nodes : ObjList)
  | jsHtmlNode (element : Obj) (children : Obj) (attrs : AttrList)
  | jsFrozenHtmlNode (element : Obj) (children : Obj) (attrs : AttrList)
  | extRenderable (fn : Unit → Except String String)

/-- Ordered sequence of nodes (the contents of a node list). -/
inductive ObjList where
  | nil
  | cons (hd : Obj) (tl : ObjList)

/-- A stored attribute slot.  `HtmlNode.__init__` and `HtmlNode.__call__`
store `cls.try_from(value) if value else value`: truthy values are
converted (`conv`), falsy values are stored unconverted (`raw`). -/
inductive Attr where
  | conv (r : Obj)
  | raw (v : Value)

/-- Ordered attribute map (Python dict preserves insertion order). -/
inductive AttrList where
  | nil
  | cons (key : String) (val : Attr) (tl : AttrList)

/-- Arbitrary Python values reaching the conversion registry: `None`,
strings, ints, bools, lists, and instances of the library classes
(`vObj`). -/
inductive Value where
  | vNone
  | vStr (s : String)
  | vInt (n : Int)
  | vBool (b : Bool)
  | vList (xs : ValueList)
  | vObj (r : Obj)

/-- A Python list of values. -/
inductive ValueList where
  | nil
  | cons (hd : Value) (tl : ValueList)

end

/-- Python truthiness of a modelled value.  Library objects define neither
a custom bool conversion nor a length, so every instance is truthy. -/
def pyTruthy : Value → Bool
  | .vNone => false
  | .vStr s => !(s == "")
  | .vInt n => !(n == 0)
  | .vBool b => b
  | .vList .nil => false
  | .vList (.cons _ _) => true
  | .vObj _ => true

/-- Python str() of a scalar value, as used by the final converter
fallback.  The list, None and object branches are unreachable through the
default converter chain (those values are intercepted by earlier
branches), so their exact text never matters; they are given simple
renderings. -/
def pyStrValue : Value → String
  | .vNone => "None"
  | .vStr s => s
  | .vInt n => toString n
  | .vBool true => "True"
  | .vBool false => "False"
  | .vList _ => "[...]"
  | .vObj _ => "<renderable object>"

/-- Python repr() stand-in, used only in the ConversionError message of an
exhausted converter chain. -/
def pyReprValue : Value → String
  | .vNone => "None"
  | .vStr s => "\x27" ++ s ++ "\x27"
  | .vInt n => toString n
  | .vBool true => "True"
  | .vBool false => "False"
  | .vList _ => "[...]"
  | .vObj _ => "<renderable object>"

/-- isinstance(x, HtmlRenderable): every library class except a foreign
`Renderable` belongs to the markup family (`JavaScript` and the `Js*`
classes all subclass `HtmlRenderable`). -/
def isHtmlRenderable : Obj → Bool
  | .extRenderable _ => false
  | _ => true

/-- isinstance(x, JsRenderable): only `JsTextNode`, `JsLazyTextNode`,
`JsHtmlNode` and `JsFrozenHtmlNode` subclass `JsRenderable`
(`JsNodeList` extends only `HtmlNodeList`, and `JsText`/`JsLazyText`
extend only `JavaScript`). -/
def isJsRenderable : Obj → Bool
  | .jsTextNode _ => true
  | .jsLazyTextNode _ => true
  | .jsHtmlNode _ _ _ => true
  | .jsFrozenHtmlNode _ _ _ => true
  | _ => false

/-- The pure string-assembly step of `AbstractHtmlNode.render`: the code
appends a space plus the attribute string exactly when the joined
attribute string is truthy (non-empty). -/
def assembleTag (el attrs body : String) : String :=
  "<" ++ el ++ (if attrs == "" then "" else " " ++ attrs) ++ ">"
    ++ body ++ "</" ++ el ++ ">"

mutual

/-- The render method of every library object.  `Text.render` returns the stored
text, `LazyText.render` invokes the stored producer, `HtmlNodeList.render`
concatenates its elements, and `AbstractHtmlNode.render` (inherited by
`HtmlNode`, `JsHtmlNode` and `JsFrozenHtmlNode`) assembles
open tag, attributes, children, close tag. -/
def renderObj : Obj → Except String String
  | .htmlText s => .ok s
  | .htmlLazyText fn => fn ()
  | .htmlNodeList ns => renderConcat ns
  | .htmlNode e c a => do
      let el ← renderObj e
      let parts ← renderAttrParts a
      let body ← renderObj c
      .ok (assembleTag el (String.intercalate " " parts) body)
  | .jsText s => .ok s
  | .jsLazyText fn => fn ()
  | .jsTextNode s => .ok s
  | .jsLazyTextNode fn => fn ()
  | .jsNodeList ns => renderConcat ns
  | .jsHtmlNode e c a => do
      let el ← renderObj e
      let parts ← renderAttrParts a
      let body ← renderObj c
      .ok (assembleTag el (String.intercalate " " parts) body)
  | .jsFrozenHtmlNode e c a => do
      let el ← renderObj e
      let parts ← renderAttrParts a
      let body ← renderObj c
      .ok (assembleTag el (String.intercalate " " parts) body)
  | .extRenderable fn => fn ()

/-- One entry per attribute, as produced by
`AbstractHtmlNode.render_attributes`: a slot that is `None` renders as the
bare key, any other slot renders as key="value" via the `render` method of
the stored value; a raw slot that is neither `None` nor a renderable has
no `render` method, so the code raises AttributeError. -/
def renderAttrParts : AttrList → Except String (List String)
  | .nil => .ok []
  | .cons k (.conv r) tl => do
      let v ← renderObj r
      let rest ← renderAttrParts tl
      .ok ((k ++ "=\"" ++ v ++ "\"") :: rest)
  | .cons k (.raw .vNone) tl => do
      let rest ← renderAttrParts tl
      .ok (k :: rest)
  | .cons k (.raw (.vObj r)) tl => do
      let v ← renderObj r
      let rest ← renderAttrParts tl
      .ok ((k ++ "=\"" ++ v ++ "\"") :: rest)
  | .cons _ (.raw _) _ => .error "AttributeError: object has no attribute render"

/-- Rendering of a node list, `HtmlNodeList.render`: concatenation of the element renders in
order, with no separator. -/
def renderConcat : ObjList → Except String String
  | .nil => .ok ""
  | .cons hd tl => do
      let s ← renderObj hd
      let rest ← renderConcat tl
      .ok (s ++ rest)

end

/-- Joined attribute string, as computed inside
`AbstractHtmlNode.render`: the single-space join of the per-attribute
renders. -/
def renderAttrsJoined (a : AttrList) : Except String String := do
  let parts ← renderAttrParts a
  .ok (String.intercalate " " parts)

/-- String conversion: `Renderable.__str__` returns `self.render()` and no library class
overrides it. -/
def pyStrOfRenderable (o : Obj) : Except String String := renderObj o

mutual

/-- The markup-family conversion `HtmlRenderable.try_from` specialised to
the default registry `converters = [html_basic_converter]`: a markup-family
instance passes through; any other renderable is wrapped in a lazy-text
node bound to its render method; `None` becomes an empty fixed-text node;
a list becomes an `HtmlNodeList` of recursively converted elements;
anything else becomes a fixed-text node of its `str()`.  Totality of the
default chain is proved below against the generic registry iteration
`tryFromChain`. -/
def htmlTryFrom : Value → Obj
  | .vObj r => if isHtmlRenderable r then r else .htmlLazyText (fun _ => renderObj r)
  | .vNone => .htmlText ""
  | .vList xs => .htmlNodeList (htmlConvertList xs)
  | v => .htmlText (pyStrValue v)

/-- Node-list construction, `HtmlNodeList.__init__`: convert each raw element through the family
registry, in order. -/
def htmlConvertList : ValueList → ObjList
  | .nil => .nil
  | .cons hd tl => .cons (htmlTryFrom hd) (htmlConvertList tl)

end

mutual

/-- The target-language conversion `JsRenderable.try_from` specialised to
`converters = [js_basic_converter]`: same chain as the markup family with
the membership test replaced by `isinstance(x, JsRenderable)` and the
wrapper classes replaced by `JsLazyTextNode`, `JsTextNode` and
`JsNodeList`. -/
def jsTryFrom : Value → Obj
  | .vObj r => if isJsRenderable r then r else .jsLazyTextNode (fun _ => renderObj r)
  | .vNone => .jsTextNode ""
  | .vList xs => .jsNodeList (jsConvertList xs)
  | v => .jsTextNode (pyStrValue v)

/-- Element-wise conversion used by `JsNodeList`. -/
def jsConvertList : ValueList → ObjList
  | .nil => .nil
  | .cons hd tl => .cons (jsTryFrom hd) (jsConvertList tl)

end

/-- Generic registry iteration `try_from`: run the converters in order,
take the first non-None result, raise a TypeError naming the value if the
chain is exhausted. -/
def tryFromChain (cs : List (Value → Option Obj)) (v : Value) : Except String Obj :=
  match cs with
  | [] => .error ("TypeError: Could not convert to HtmlRenderable: " ++ pyReprValue v)
  | c :: rest =>
      match c v with
      | some r => .ok r
      | none => tryFromChain rest v

/-- The converter `html_basic_converter` exactly as in the source: four guarded branches
and a stringify fallback, every branch returning a node (never None). -/
def htmlBasicConverter : Value → Option Obj
  | .vObj r =>
      if isHtmlRenderable r then some r
      else some (.htmlLazyText (fun _ => renderObj r))
  | .vNone => some (.htmlText "")
  | .vList xs => some (.htmlNodeList (htmlConvertList xs))
  | v => some (.htmlText (pyStrValue v))

/-- The converter `js_basic_converter` exactly as in the source. -/
def jsBasicConverter : Value → Option Obj
  | .vObj r =>
      if isJsRenderable r then some r
      else some (.jsLazyTextNode (fun _ => renderObj r))
  | .vNone => some (.jsTextNode "")
  | .vList xs => some (.jsNodeList (jsConvertList xs))
  | v => some (.jsTextNode (pyStrValue v))

/-- Attribute-dict conversion performed by `HtmlNode.__init__` and
`HtmlNode.__call__`: each value is converted through the family registry
if truthy and stored raw otherwise. -/
def attrsConvert (tryF : Value → Obj) : List (String × Value) → AttrList
  | [] => .nil
  | (k, v) :: rest =>
      .cons k (if pyTruthy v then .conv (tryF v) else .raw v)
        (attrsConvert tryF rest)

/-- The constructor `HtmlNode.__init__(children, attributes, element)`: the element is
`try_from(element or "")`, the children are `try_from(children or [])`,
and the attribute dict (defaulting to empty) is converted value-wise.
Omitted parameters are the Python default `None` (`.vNone` / `none`). -/
def htmlNodeInit (children : Value) (attributes : Option (List (String × Value)))
    (element : Value) : Obj :=
  .htmlNode
    (htmlTryFrom (if pyTruthy element then element else .vStr ""))
    (htmlTryFrom (if pyTruthy children then children else .vList .nil))
    (attrsConvert htmlTryFrom (attributes.getD []))

/-- A reconfigure argument: either omitted (the `...` default) or
supplied. -/
inductive Param (α : Type) where
  | omitted
  | supplied (v : α)

/-- The three arguments of `HtmlNode.__call__`. -/
structure CallArgs where
  children : Param Value
  attributes : Param (Option (List (String × Value)))
  element : Param Value

/-- First-match key lookup in an attribute map. -/
def attrLookup : AttrList → String → Option Attr
  | .nil, _ => none
  | .cons k v tl, key => if k == key then some v else attrLookup tl key

/-- Key membership in an attribute map. -/
def attrHasKey : AttrList → String → Bool
  | .nil, _ => false
  | .cons k _ tl, key => k == key || attrHasKey tl key

/-- Concatenation of attribute maps. -/
def attrConcat : AttrList → AttrList → AttrList
  | .nil, ys => ys
  | .cons k v tl, ys => .cons k v (attrConcat tl ys)

/-- First phase of the Python dict merge: every existing key keeps its
position, its value replaced when the update map also binds the key. -/
def attrOverwrite (old new : AttrList) : AttrList :=
  match old with
  | .nil => .nil
  | .cons k v tl => .cons k ((attrLookup new k).getD v) (attrOverwrite tl new)

/-- Second phase of the Python dict merge: keys of the update map that are
not already present are appended in update order. -/
def attrAppendNew (old new : AttrList) : AttrList :=
  match new with
  | .nil => .nil
  | .cons k v tl =>
      if attrHasKey old k then attrAppendNew old tl
      else .cons k v (attrAppendNew old tl)

/-- Python dict-merge as performed by an update of old with new:
existing keys retain position and are overwritten, new keys are
appended. -/
def attrUpdate (old new : AttrList) : AttrList :=
  attrConcat (attrOverwrite old new) (attrAppendNew old new)

/-- The reconfigure operation `HtmlNode.__call__(children, attributes, element)` over the node state
triple (element, children, attributes): an omitted argument leaves the
part unchanged; a supplied element or children is converted (with falsy
reset to empty text or empty list); attributes `None` clears the map,
and a supplied dict is converted value-wise and merged over the current
map.  The Python method mutates the node in place and returns `self`;
the embedding returns the updated state. -/
def nodeCall (tryF : Value → Obj) (st : Obj × Obj × AttrList) (args : CallArgs) :
    Obj × Obj × AttrList :=
  let e := match args.element with
    | .omitted => st.1
    | .supplied v => tryF (if pyTruthy v then v else .vStr "")
  let c := match args.children with
    | .omitted => st.2.1
    | .supplied v => tryF (if pyTruthy v then v else .vList .nil)
  let a := match args.attributes with
    | .omitted => st.2.2
    | .supplied none => .nil
    | .supplied (some d) => attrUpdate st.2.2 (attrsConvert tryF d)
  (e, c, a)

/-- Iterated reconfiguration of a dual-representation node (as the Python
callable form, with the target-language registry). -/
def applyCallsJs (st : Obj × Obj × AttrList) (calls : List CallArgs) :
    Obj × Obj × AttrList :=
  calls.foldl (nodeCall jsTryFrom) st

/-- The fixed global-namespace prefix `JsHtmlNode.name_space`. -/
def jsNameSpace : String := "__jshtml_"

/-- The method called on a raw attribute value by
`render_attributes`; only modelled objects have a `render` method. -/
def valueRenderMethod : Value → Except String String
  | .vObj r => renderObj r
  | _ => .error "AttributeError: object has no attribute render"

/-- The identity property `JsHtmlNode.identity`: `self.attributes["id"].render()`.  A missing
key raises KeyError; a raw non-renderable slot raises AttributeError. -/
def identityOf (a : AttrList) : Except String String :=
  match attrLookup a "id" with
  | none => .error "KeyError: \x27id\x27"
  | some (.conv r) => renderObj r
  | some (.raw v) => valueRenderMethod v

/-- Reading `identity` as an attribute of a dual-representation node. -/
def identityObj : Obj → Except String String
  | .jsHtmlNode _ _ a => identityOf a
  | .jsFrozenHtmlNode _ _ a => identityOf a
  | _ => .error "AttributeError: identity"

/-- The namespace handle `JsHtmlNode.handle`: `window.` plus the fixed prefix plus the
identity, optionally suffixed with a dotted attribute path. -/
def handleObj (o : Obj) (attrPath : Option String) : Except String String := do
  let i ← identityObj o
  let h := "window." ++ jsNameSpace ++ i
  .ok (match attrPath with | none => h | some a => h ++ "." ++ a)

/-- The constant JavaScript source emitted by the `JsHtmlNode.js_render_fn`
property (identical for every node; it reads all data from the live
runtime element). -/
def jsRenderFnSource : String :=
  "function () \x7b"
    ++ "  let result = \x27\x27;"
    ++ "  const element = this.getElement();"
    ++ "  const tagName = element.tagName;"
    ++ "  result += `<$\x7btagName\x7d`;"
    ++ "  for (attr of element.attributes) \x7b"
    ++ "    result += `$\x7battr.name\x7d=`;"
    ++ "    if (attr.value) result += `$\x7battr.value\x7d`;"
    ++ "  \x7d"
    ++ "  for (child of this.children) \x7b"
    ++ "    result += child().render();"
    ++ "  \x7d"
    ++ "  return result;"
    ++ "\x7d"

/-- Result of reading the `js_render_fn` attribute of an object.  On
`JsTextNode`, `JsLazyTextNode` and `JsHtmlNode` the name is a property
and the read yields the property value; on `JsFrozenHtmlNode` the class
body defines `js_render_fn` as a plain method without the property
decorator, so by the descriptor rules the read yields a bound method
object instead of a `JsText`. -/
inductive JsAttrAccess where
  | prop (o : Obj)
  | boundMethod

/-- Reading the `js_render_fn` attribute, per concrete class.  The
`JsLazyTextNode` property interpolates `self.render()` at read time, so a
raising producer propagates. -/
def jsRenderFnAccess : Obj → Except String JsAttrAccess
  | .jsTextNode s => .ok (.prop (.jsText ("() => \x27" ++ s ++ "\x27")))
  | .jsLazyTextNode fn => do
      let s ← fn ()
      .ok (.prop (.jsText ("() => \x27" ++ s ++ "\x27")))
  | .jsHtmlNode _ _ _ => .ok (.prop (.jsText jsRenderFnSource))
  | .jsFrozenHtmlNode _ _ _ => .ok .boundMethod
  | _ => .error "AttributeError: js_render_fn"

/-- The body of `JsFrozenHtmlNode.js_render_fn` when actually called as a
method: a constant, state-ignoring no-op function source. -/
def jsFrozenRenderFnCall (_ : Obj) : Obj := .jsText "() => \x7b\x7d"

/-- Reading the `js_handle` attribute: the generic `JsRenderable.js_handle`
builds an object literal binding `render` to the render function source,
while `JsHtmlNode` (and its frozen subclass) override it with the
namespace handle. -/
def jsHandleObj (o : Obj) : Except String String :=
  match o with
  | .jsTextNode _ | .jsLazyTextNode _ => do
      let acc ← jsRenderFnAccess o
      let s ← match acc with
        | .prop p => renderObj p
        | .boundMethod => .ok "<bound method>"
      .ok ("\x7brender: " ++ s ++ "\x7d")
  | .jsHtmlNode _ _ _ | .jsFrozenHtmlNode _ _ _ => handleObj o none
  | _ => .error "AttributeError: js_handle"

/-- Iterating an object (the bootstrap generator iterates
`self.dom.children`); only node lists are iterable. -/
def iterNodes : Obj → Except String ObjList
  | .htmlNodeList ns => .ok ns
  | .jsNodeList ns => .ok ns
  | _ => .error "TypeError: object is not iterable"

/-- The child-accessor entries of the bootstrap script: one zero-argument
arrow function per child, in child order, each returning the child
handle. -/
def bootstrapChildEntries : ObjList → Except String (List String)
  | .nil => .ok []
  | .cons hd tl => do
      let h ← jsHandleObj hd
      let rest ← bootstrapChildEntries tl
      .ok (("() => " ++ h) :: rest)

/-- The bootstrap script `JsHtmlNode.Bootstrap.render`: the immediately-invoked installation
statement, assembled exactly as in the source (handle, then the window
lookup by identity, then the render-function source read through the
`js_render_fn` attribute, then the comma-joined child accessors). -/
def bootstrapRender (dom : Obj) : Except String String :=
  match dom with
  | .jsHtmlNode _ c _ | .jsFrozenHtmlNode _ c _ => do
      let h ← handleObj dom none
      let i ← identityObj dom
      let acc ← jsRenderFnAccess dom
      let rSrc ← match acc with
        | .prop p => renderObj p
        | .boundMethod =>
            .error "AttributeError: \x27method\x27 object has no attribute \x27render\x27"
      let kids ← iterNodes c
      let entries ← bootstrapChildEntries kids
      .ok ("(() => \x7b" ++ h ++ "=" ++ "\x7b" ++ "getElement: () => "
        ++ "window[\x27" ++ i ++ "\x27]," ++ "render: " ++ rSrc ++ ","
        ++ "children: [" ++ String.intercalate "," entries ++ "],"
        ++ "\x7d;" ++ "\x7d)();")
  | _ => .error "AttributeError: bootstrap"

/-- A caller-level Python dict of raw attribute values. -/
abbrev PyDict := List (String × Value)

/-- Python dict assignment: an existing key keeps its position and gets
the new value, a new key is appended. -/
def dictSet : PyDict → String → Value → PyDict
  | [], k, v => [(k, v)]
  | (k0, v0) :: rest, k, v =>
      if k0 == k then (k0, v) :: rest else (k0, v0) :: dictSet rest k v

/-- The test `attributes.get("id") is None` of `JsHtmlNode.__init__`. -/
def dictIdIsNone (d : PyDict) : Bool :=
  match List.lookup "id" d with
  | none => true
  | some .vNone => true
  | some _ => false

/-- A heap of attribute dicts, addressed by reference, to model the
in-place mutation of the caller-supplied dict. -/
abbrev Heap := List PyDict

/-- Heap read. -/
def heapGet : Heap → Nat → Option PyDict
  | [], _ => none
  | d :: _, 0 => some d
  | _ :: t, n + 1 => heapGet t n

/-- Heap write at an existing reference. -/
def heapSet : Heap → Nat → PyDict → Heap
  | [], _, _ => []
  | _ :: t, 0, d => d :: t
  | x :: t, n + 1, d => x :: heapSet t n d

/-- The attribute-dict effect of `JsHtmlNode.__init__`: with no dict
supplied a fresh one is created; with a caller-supplied dict (a heap
reference), when the dict has no `id` entry or maps `id` to `None`, the
converted default token is written into that same dict, in place. -/
def jsHtmlNodeInitDictEffect (h : Heap) (attrsRef : Option Nat) (token : String) :
    Option (Heap × PyDict) :=
  match attrsRef with
  | none =>
      let d : PyDict := []
      let d' := if dictIdIsNone d then dictSet d "id" (.vObj (jsTryFrom (.vStr token))) else d
      some (h, d')
  | some r =>
      match heapGet h r with
      | none => none
      | some d =>
          let d' := if dictIdIsNone d then dictSet d "id" (.vObj (jsTryFrom (.vStr token))) else d
          some (heapSet h r d', d')

/-- The constructor `JsHtmlNode.__init__` as a node builder: insert the default
identity token when needed, then run the inherited `HtmlNode.__init__`
with the target-language registry (the class of `self` resolves
`try_from` and the converters through `JsRenderable`). -/
def jsHtmlNodeInit (children : Value) (attributes : Option (List (String × Value)))
    (element : Value) (token : String) : Obj :=
  let d := attributes.getD []
  let d1 := if dictIdIsNone d then dictSet d "id" (.vObj (jsTryFrom (.vStr token))) else d
  .jsHtmlNode
    (jsTryFrom (if pyTruthy element then element else .vStr ""))
    (jsTryFrom (if pyTruthy children then children else .vList .nil))
    (attrsConvert jsTryFrom d1)

/-- Conversion of an ordered node sequence to a Lean list, used to state
length and order properties. -/
def objListToList : ObjList → List Obj
  | .nil => []
  | .cons hd tl => hd :: objListToList tl

/-- The render assembly exactly as the specification sentence words it:
the space is inserted whenever the attribute MAP is non-empty (`attrsNonempty`),
regardless of what the joined attribute string is. -/
def c1SpecFormula (el : String) (attrsNonempty : Bool) (attrsJoined body : String) :
    String :=
  "<" ++ el ++ (if attrsNonempty then " " ++ attrsJoined else "") ++ ">"
    ++ body ++ "</" ++ el ++ ">"

/-- Evaluation semantics of the JavaScript function emitted by
`JsHtmlNode.js_render_fn` (`jsRenderFnSource`), read off the emitted
source line by line: it appends the template literal of a less-than sign
and the tag name; then, for each live attribute, the attribute name
followed by an equals sign, followed by the attribute value only when
that value is truthy (a non-empty string); then each child render, in
order; it never appends a closing greater-than sign, never separates
attributes with spaces or quotes, and never appends a closing tag. -/
def emittedJsRenderSem (tagName : String) (attrs : List (String × String))
    (childRenders : List String) : String :=
  "<" ++ tagName
    ++ String.join (attrs.map (fun p => p.1 ++ "=" ++ (if p.2 == "" then "" else p.2)))
    ++ String.join childRenders

/-- The reconfigure-argument shapes under which the amended identity
claim is stated: the attributes argument is omitted or is a dict that
does not bind the `id` key. -/
def attrsArgOkForId : Param (Option (List (String × Value))) → Prop
  | .omitted => True
  | .supplied none => False
  | .supplied (some d) => ∀ p ∈ d, p.1 ≠ "id"

theorem attrLookup_concat (xs ys : AttrList) (k : String) :
    attrLookup (attrConcat xs ys) k = (attrLookup xs k).or (attrLookup ys k) :=
  match xs with
  | .nil => rfl
  | .cons k0 _ tl => by
      by_cases h : k0 == k <;>
        simp [attrConcat, attrLookup, h, attrLookup_concat tl ys k]

theorem attrLookup_overwrite (old new : AttrList) (k : String) :
    attrLookup (attrOverwrite old new) k
      = (attrLookup old k).map (fun v => (attrLookup new k).getD v) :=
  match old with
  | .nil => rfl
  | .cons k0 _ tl => by
      by_cases h : k0 == k
      · have hk : k0 = k := eq_of_beq h
        subst hk
        simp [attrOverwrite, attrLookup]
      · simp [attrOverwrite, attrLookup, h, attrLookup_overwrite tl new k]

theorem attrHasKey_eq_isSome (l : AttrList) (k : String) :
    attrHasKey l k = (attrLookup l k).isSome :=
  match l with
  | .nil => rfl
  | .cons k0 _ tl => by
      by_cases h : k0 == k <;>
        simp [attrHasKey, attrLookup, h, attrHasKey_eq_isSome tl k]

theorem attrLookup_appendNew (old new : AttrList) (k : String) :
    attrLookup (attrAppendNew old new) k
      = if attrHasKey old k then none else attrLookup new k :=
  match new with
  | .nil => by simp [attrAppendNew, attrLookup]
  | .cons k0 v tl => by
      by_cases hmem : attrHasKey old k0
      · by_cases h : k0 == k
        · have hk : k0 = k := eq_of_beq h
          subst hk
          simp [attrAppendNew, hmem, attrLookup_appendNew old tl k0, hmem]
        · simp [attrAppendNew, hmem, attrLookup, h, attrLookup_appendNew old tl k]
      · by_cases h : k0 == k
        · have hk : k0 = k := eq_of_beq h
          subst hk
          simp [attrAppendNew, hmem, attrLookup]
        · simp [attrAppendNew, hmem, attrLookup, h, attrLookup_appendNew old tl k]

theorem attrLookup_update (old new : AttrList) (k : String) :
    attrLookup (attrUpdate old new) k = (attrLookup new k).or (attrLookup old k) := by
  rw [attrUpdate, attrLookup_concat, attrLookup_overwrite, attrLookup_appendNew,
    attrHasKey_eq_isSome]
  cases hold : attrLookup old k <;> cases hnew : attrLookup new k <;> simp

theorem attrsConvert_lookup_none (tryF : Value → Obj) (d : List (String × Value))
    (k : String) (h : ∀ p ∈ d, p.1 ≠ k) :
    attrLookup (attrsConvert tryF d) k = none := by
  induction d with
  | nil => rfl
  | cons p tl ih =>
      obtain ⟨k0, v0⟩ := p
      have hk : ¬(k0 == k) = true := by
        simp only [beq_iff_eq]
        exact h (k0, v0) (List.mem_cons_self _ _)
      simp only [attrsConvert, attrLookup, if_neg hk]
      exact ih (fun q hq => h q (List.mem_cons_of_mem _ hq))

theorem nodeCall_preserves_id (tryF : Value → Obj) (st : Obj × Obj × AttrList)
    (args : CallArgs) (h : attrsArgOkForId args.attributes) :
    attrLookup (nodeCall tryF st args).2.2 "id" = attrLookup st.2.2 "id" := by
  cases hq : args.attributes with
  | omitted => simp [nodeCall, hq]
  | supplied o =>
      cases o with
      | none => rw [hq] at h; exact absurd h (by simp [attrsArgOkForId])
      | some d =>
          rw [hq] at h
          simp only [nodeCall, hq]
          rw [attrLookup_update, attrsConvert_lookup_none tryF d "id" h]
          rfl

theorem identityOf_congr (a b : AttrList)
    (h : attrLookup a "id" = attrLookup b "id") : identityOf a = identityOf b := by
  unfold identityOf
  rw [h]

theorem except_bind_ok {α β : Type} (a : α) (f : α → Except String β) :
    (Except.ok a >>= f) = f a := rfl

theorem except_bind_error {α β : Type} (e : String) (f : α → Except String β) :
    ((Except.error e : Except String α) >>= f) = .error e := rfl

theorem applyCallsJs_preserves_id : ∀ (calls : List CallArgs) (st : Obj × Obj × AttrList),
    (∀ cargs ∈ calls, attrsArgOkForId cargs.attributes) →
    attrLookup (applyCallsJs st calls).2.2 "id" = attrLookup st.2.2 "id" := by
  intro calls
  induction calls with
  | nil => intro st _; rfl
  | cons c cs ih =>
      intro st h
      have h1 : attrsArgOkForId c.attributes := h c (List.mem_cons_self _ _)
      have h2 : ∀ cargs ∈ cs, attrsArgOkForId cargs.attributes :=
        fun cargs hc => h cargs (List.mem_cons_of_mem _ hc)
      calc attrLookup (applyCallsJs st (c :: cs)).2.2 "id"
          = attrLookup (applyCallsJs (nodeCall jsTryFrom st c) cs).2.2 "id" := rfl
        _ = attrLookup (nodeCall jsTryFrom st c).2.2 "id" := ih _ h2
        _ = attrLookup st.2.2 "id" := nodeCall_preserves_id _ _ _ h1

/-- Claim C10: converting a renderable node to its string form returns
exactly the render; `Renderable.__str__` returns `self.render()` and no
subclass overrides the string conversion. -/
theorem c10_str_equals_render : ∀ o : Obj, pyStrOfRenderable o = renderObj o :=
  fun _ => rfl

/-- Claim C4: reconfigure leaves an omitted part unchanged (for each of
the three parameters, whatever the other two arguments are), resets the
attribute map on an explicit None, merges a supplied attribute map over
the current one (a key is looked up first in the update, then in the old
map, so existing keys are retained unless overwritten), and on the
concrete example, attributes id=1 reconfigured with class=x keeps both
keys.  The Python method mutates the node in place and returns self; the
embedding states the same transition on the node state triple. -/
theorem c4_reconfigure :
    (∀ (tryF : Value → Obj) (st : Obj × Obj × AttrList),
        nodeCall tryF st ⟨Param.omitted, Param.omitted, Param.omitted⟩ = st)
  ∧ (∀ (tryF : Value → Obj) (st : Obj × Obj × AttrList) (pc pe : Param Value),
        (nodeCall tryF st ⟨pc, Param.omitted, pe⟩).2.2 = st.2.2)
  ∧ (∀ (tryF : Value → Obj) (st : Obj × Obj × AttrList)
        (pa : Param (Option (List (String × Value)))) (pe : Param Value),
        (nodeCall tryF st ⟨Param.omitted, pa, pe⟩).2.1 = st.2.1)
  ∧ (∀ (tryF : Value → Obj) (st : Obj × Obj × AttrList)
        (pc : Param Value) (pa : Param (Option (List (String × Value)))),
        (nodeCall tryF st ⟨pc, pa, Param.omitted⟩).1 = st.1)
  ∧ (∀ (tryF : Value → Obj) (st : Obj × Obj × AttrList) (pc pe : Param Value),
        (nodeCall tryF st ⟨pc, Param.supplied none, pe⟩).2.2 = AttrList.nil)
  ∧ (∀ (old upd : AttrList) (k : String),
        attrLookup (attrUpdate old upd) k = (attrLookup upd k).or (attrLookup old k))
  ∧ (nodeCall htmlTryFrom
        (Obj.htmlText "div", Obj.htmlNodeList .nil,
          attrsConvert htmlTryFrom [("id", Value.vStr "1")])
        ⟨Param.omitted, Param.supplied (some [("class", Value.vStr "x")]), Param.omitted⟩
      = (Obj.htmlText "div", Obj.htmlNodeList .nil,
          AttrList.cons "id" (Attr.conv (Obj.htmlText "1"))
            (AttrList.cons "class" (Attr.conv (Obj.htmlText "x")) AttrList.nil))) :=
  ⟨fun _ _ => rfl, fun _ _ _ _ => rfl, fun _ _ _ _ => rfl, fun _ _ _ _ => rfl,
    fun _ _ _ _ => rfl, attrLookup_update, rfl⟩

/-- Claim C8: an attribute supplied with a falsy non-None value (empty
string, zero, False, empty list) is stored unconverted by the
constructor, and a subsequent render raises AttributeError, because
`render_attributes` only tests the slot against None before calling the
render method of the stored value; only None itself produces the bare-key
rendering. -/
theorem c8_falsy_attribute (k : String) (v : Value)
    (hf : pyTruthy v = false) (hn : v ≠ .vNone) :
    attrsConvert htmlTryFrom [(k, v)] = .cons k (.raw v) .nil
  ∧ renderObj (.htmlNode (.htmlText "input") (.htmlNodeList .nil) (.cons k (.raw v) .nil))
      = .error "AttributeError: object has no attribute render"
  ∧ renderAttrParts (.cons k (.raw .vNone) .nil) = .ok [k] := by
  refine ⟨by simp [attrsConvert, hf], ?_, rfl⟩
  cases v with
  | vNone => exact absurd rfl hn
  | vObj r => exact absurd hf (by simp [pyTruthy])
  | vStr s => rfl
  | vInt n => rfl
  | vBool b => rfl
  | vList xs => rfl

/-- Claim C8 witness at the empty string value. -/
theorem c8_falsy_attribute_witness :
    pyTruthy (.vStr "") = false
  ∧ (attrsConvert htmlTryFrom [("disabled", .vStr "")]
        = .cons "disabled" (.raw (.vStr "")) .nil
    ∧ renderObj (.htmlNode (.htmlText "input") (.htmlNodeList .nil)
          (.cons "disabled" (.raw (.vStr "")) .nil))
        = .error "AttributeError: object has no attribute render"
    ∧ renderAttrParts (.cons "disabled" (.raw .vNone) .nil) = .ok ["disabled"]) :=
  ⟨rfl, c8_falsy_attribute "disabled" (.vStr "") rfl (fun h => nomatch h)⟩

/-- Claim C2: the JavaScript function emitted by `js_render_fn` is NOT
behaviourally equivalent to `MarkupNode.render`.  `emittedJsRenderSem` is
the evaluation semantics of the emitted source (`jsRenderFnSource`) over
the live element state; on an element with tag div, the single attribute
id=d1 and no children, the emitted function produces an unbalanced
fragment without the closing angle bracket, attribute quoting or closing
tag, while the server-side render of the node holding the same data
produces the complete tag. -/
theorem c2_code_bug :
    emittedJsRenderSem "div" [("id", "d1")] [] = "<divid=d1"
  ∧ renderObj (.jsHtmlNode (.jsTextNode "div") (.jsNodeList .nil)
        (.cons "id" (.conv (.jsTextNode "d1")) .nil)) = .ok "<div id=\"d1\"></div>"
  ∧ ("<divid=d1" : String) ≠ "<div id=\"d1\"></div>"
  ∧ jsRenderFnAccess (.jsHtmlNode (.jsTextNode "div") (.jsNodeList .nil)
        (.cons "id" (.conv (.jsTextNode "d1")) .nil))
      = .ok (.prop (.jsText jsRenderFnSource)) :=
  ⟨rfl, rfl, by decide, rfl⟩

/-- Claim C7: the frozen variant class body defines `js_render_fn` without
the property decorator, so reading the attribute yields a bound method
object rather than the constant no-op source; the bootstrap generator,
which reads the attribute and calls render on the result, therefore
raises AttributeError on every frozen node, while the same read on the
ordinary dual-representation node yields the live-introspection source.
Only when the method is actually called does it return the constant no-op
function source. -/
theorem c7_code_bug :
    jsRenderFnAccess (.jsFrozenHtmlNode (.jsTextNode "script") (.jsNodeList .nil)
        (.cons "id" (.conv (.jsTextNode "s1")) .nil)) = .ok .boundMethod
  ∧ jsFrozenRenderFnCall (.jsFrozenHtmlNode (.jsTextNode "script") (.jsNodeList .nil)
        (.cons "id" (.conv (.jsTextNode "s1")) .nil)) = .jsText "() => \x7b\x7d"
  ∧ bootstrapRender (.jsFrozenHtmlNode (.jsTextNode "script") (.jsNodeList .nil)
        (.cons "id" (.conv (.jsTextNode "s1")) .nil))
      = .error "AttributeError: \x27method\x27 object has no attribute \x27render\x27"
  ∧ jsRenderFnAccess (.jsHtmlNode (.jsTextNode "script") (.jsNodeList .nil)
        (.cons "id" (.conv (.jsTextNode "s1")) .nil))
      = .ok (.prop (.jsText jsRenderFnSource)) :=
  ⟨rfl, rfl, rfl, rfl⟩

/-- Claim C3 counterexample: reconfiguring with an explicit None
attributes argument clears the whole attribute map, dropping the id
entry, after which reading the identity raises KeyError instead of
returning the previous identity. -/
theorem c3_counterexample :
    identityObj (.jsHtmlNode (.jsTextNode "div") (.jsNodeList .nil)
        (.cons "id" (.conv (.jsTextNode "root")) .nil)) = .ok "root"
  ∧ (nodeCall jsTryFrom
        (.jsTextNode "div", .jsNodeList .nil, .cons "id" (.conv (.jsTextNode "root")) .nil)
        ⟨Param.omitted, Param.supplied none, Param.omitted⟩).2.2 = AttrList.nil
  ∧ identityOf AttrList.nil = .error "KeyError: \x27id\x27"
  ∧ (Except.error "KeyError: \x27id\x27" : Except String String) ≠ .ok "root" :=
  ⟨rfl, rfl, rfl, fun h => nomatch h⟩

/-- Claim C3 as amended: across any sequence of reconfigure calls whose
attributes argument is either omitted or a map that does not bind the id
key, the id slot, and with it the identity, is unchanged (a supplied map
is merged, and merging cannot drop a key it does not bind; an explicit
None reset, excluded here, clears the map, as the counterexample
shows). -/
theorem c3_amended (st : Obj × Obj × AttrList) (calls : List CallArgs)
    (h : ∀ cargs ∈ calls, attrsArgOkForId cargs.attributes) :
    attrLookup (applyCallsJs st calls).2.2 "id" = attrLookup st.2.2 "id"
  ∧ identityOf (applyCallsJs st calls).2.2 = identityOf st.2.2 := by
  have key := applyCallsJs_preserves_id calls st h
  exact ⟨key, identityOf_congr _ _ key⟩

/-- Claim C3 witness: one reconfigure call supplying children and a
class attribute leaves the id lookup and the identity unchanged. -/
theorem c3_amended_witness :
    attrLookup (applyCallsJs
        (.jsTextNode "div", .jsNodeList .nil, .cons "id" (.conv (.jsTextNode "root")) .nil)
        [⟨Param.supplied (.vStr "y"), Param.supplied (some [("class", .vStr "x")]),
            Param.omitted⟩]).2.2 "id"
      = attrLookup (.cons "id" (.conv (.jsTextNode "root")) .nil) "id"
  ∧ identityOf (applyCallsJs
        (.jsTextNode "div", .jsNodeList .nil, .cons "id" (.conv (.jsTextNode "root")) .nil)
        [⟨Param.supplied (.vStr "y"), Param.supplied (some [("class", .vStr "x")]),
            Param.omitted⟩]).2.2
      = identityOf (.cons "id" (.conv (.jsTextNode "root")) .nil) :=
  c3_amended
    (.jsTextNode "div", .jsNodeList .nil, .cons "id" (.conv (.jsTextNode "root")) .nil)
    [⟨Param.supplied (.vStr "y"), Param.supplied (some [("class", .vStr "x")]),
        Param.omitted⟩]
    (by
      intro cargs hc
      rw [List.mem_singleton] at hc
      subst hc
      intro p hp
      rw [List.mem_singleton] at hp
      subst hp
      decide)

/-- Claim C1 counterexample: an attribute map whose only entry is the
empty-string key with the absent value renders to an empty attribute
string; the code adds the separating space only when that string is
truthy, so the map is non-empty yet no space appears, contradicting the
claim that the space is present whenever the attribute map is
non-empty. -/
theorem c1_counterexample :
    renderObj (htmlNodeInit .vNone (some [("", .vNone)]) (.vStr "x")) = .ok "<x></x>"
  ∧ attrsConvert htmlTryFrom [("", .vNone)] = .cons "" (.raw .vNone) .nil
  ∧ renderAttrsJoined (.cons "" (.raw .vNone) .nil) = .ok ""
  ∧ c1SpecFormula "x" true "" "" = "<x ></x>"
  ∧ ("<x></x>" : String) ≠ "<x ></x>" :=
  ⟨rfl, rfl, rfl, rfl, by decide⟩

/-- Claim C1 as amended: render assembles the open angle bracket plus the
element render, then a single space plus the space-joined attribute
renders exactly when that joined string is non-empty (which coincides
with map non-emptiness except for the degenerate empty-string-key bare
attribute), then the closing angle bracket, the children render and the
close tag; an absent (None) attribute renders as its bare key, a present
one as key="value" via the value render; the spec example renders as
stated. -/
theorem c1_amended (e c : Obj) (a : AttrList) (el aj body : String)
    (he : renderObj e = .ok el) (ha : renderAttrsJoined a = .ok aj)
    (hc : renderObj c = .ok body) :
    renderObj (.htmlNode e c a)
      = .ok ("<" ++ el ++ (if aj == "" then "" else " " ++ aj) ++ ">"
          ++ body ++ "</" ++ el ++ ">")
  ∧ (∀ k : String, renderAttrParts (.cons k (.raw .vNone) .nil) = .ok [k])
  ∧ (∀ (k : String) (r : Obj) (vr : String), renderObj r = .ok vr →
        renderAttrParts (.cons k (.conv r) .nil) = .ok [k ++ "=\"" ++ vr ++ "\""])
  ∧ renderObj (htmlNodeInit .vNone
        (some [("disabled", .vNone), ("value", .vStr "x")]) (.vStr "input"))
      = .ok "<input disabled value=\"x\"></input>" := by
  refine ⟨?_, fun k => rfl, fun k r vr hr => by
      simp [renderAttrParts, hr, except_bind_ok], rfl⟩
  have hparts : ∃ parts, renderAttrParts a = .ok parts
      ∧ String.intercalate " " parts = aj := by
    unfold renderAttrsJoined at ha
    cases hp : renderAttrParts a with
    | error err => rw [hp] at ha; exact absurd ha (fun hh => nomatch hh)
    | ok parts =>
        rw [hp] at ha
        refine ⟨parts, rfl, ?_⟩
        injection ha
  obtain ⟨parts, hp, hj⟩ := hparts
  simp [renderObj, he, hp, hc, hj, assembleTag, except_bind_ok]

/-- Claim C1 witness at the spec example input. -/
theorem c1_amended_witness :
    renderAttrsJoined (.cons "disabled" (.raw .vNone)
        (.cons "value" (.conv (.htmlText "x")) .nil)) = .ok "disabled value=\"x\""
  ∧ renderObj (.htmlNode (.htmlText "input") (.htmlNodeList .nil)
        (.cons "disabled" (.raw .vNone) (.cons "value" (.conv (.htmlText "x")) .nil)))
      = .ok "<input disabled value=\"x\"></input>" := by
  refine ⟨rfl, ?_⟩
  have h := c1_amended (.htmlText "input") (.htmlNodeList .nil)
    (.cons "disabled" (.raw .vNone) (.cons "value" (.conv (.htmlText "x")) .nil))
    "input" "disabled value=\"x\"" "" rfl rfl rfl
  exact h.1

/-- Claim C5: the default markup-family registry converts every value,
following exactly the documented chain, and the failure path of the
registry iteration is reached only on an exhausted converter list (here:
the deliberately empty registry), where it raises an error naming the
offending value. -/
theorem c5_conversion :
    (∀ v : Value, tryFromChain [htmlBasicConverter] v = .ok (htmlTryFrom v))
  ∧ (∀ r : Obj, isHtmlRenderable r = true → htmlTryFrom (.vObj r) = r)
  ∧ (∀ r : Obj, isHtmlRenderable r = false →
        htmlTryFrom (.vObj r) = .htmlLazyText (fun _ => renderObj r))
  ∧ htmlTryFrom .vNone = .htmlText ""
  ∧ (∀ xs : ValueList, htmlTryFrom (.vList xs) = .htmlNodeList (htmlConvertList xs))
  ∧ (∀ s : String, htmlTryFrom (.vStr s) = .htmlText s)
  ∧ (∀ n : Int, htmlTryFrom (.vInt n) = .htmlText (toString n))
  ∧ (∀ v : Value, tryFromChain [] v
      = .error ("TypeError: Could not convert to HtmlRenderable: " ++ pyReprValue v)) := by
  refine ⟨?_, ?_, ?_, rfl, fun xs => rfl, fun s => rfl, fun n => rfl, fun v => rfl⟩
  · intro v
    cases v with
    | vObj r =>
        cases hr : isHtmlRenderable r <;>
          simp [tryFromChain, htmlBasicConverter, htmlTryFrom, hr]
    | vNone => rfl
    | vStr s => rfl
    | vInt n => rfl
    | vBool b => rfl
    | vList xs => rfl
  · intro r hr
    simp [htmlTryFrom, hr]
  · intro r hr
    simp [htmlTryFrom, hr]

/-- Claim C5 witness: the chain at a plain string, a markup-family node
and a foreign renderable. -/
theorem c5_conversion_witness :
    tryFromChain [htmlBasicConverter] (.vStr "a") = .ok (htmlTryFrom (.vStr "a"))
  ∧ htmlTryFrom (.vObj (.htmlText "t")) = .htmlText "t"
  ∧ htmlTryFrom (.vObj (.extRenderable (fun _ => .ok "z")))
      = .htmlLazyText (fun _ => renderObj (.extRenderable (fun _ => .ok "z"))) :=
  ⟨c5_conversion.1 (.vStr "a"),
    c5_conversion.2.1 (.htmlText "t") rfl,
    c5_conversion.2.2.1 (.extRenderable (fun _ => .ok "z")) rfl⟩

theorem bootstrapChildEntries_spec : ∀ (ks : ObjList) (es : List String),
    bootstrapChildEntries ks = .ok es →
    es.length = (objListToList ks).length
    ∧ ∀ (j : Nat) (hd : Obj), (objListToList ks).get? j = some hd →
        ∃ hs, jsHandleObj hd = .ok hs ∧ es.get? j = some ("() => " ++ hs)
  | .nil, es, h => by
      simp only [bootstrapChildEntries] at h
      injection h with h
      subst h
      exact ⟨rfl, fun j hd hj => by simp [objListToList] at hj⟩
  | .cons hd tl, es, h => by
      simp only [bootstrapChildEntries] at h
      cases hh : jsHandleObj hd with
      | error err => rw [hh, except_bind_error] at h; exact absurd h (fun x => nomatch x)
      | ok hs =>
          rw [hh, except_bind_ok] at h
          cases ht : bootstrapChildEntries tl with
          | error err => rw [ht, except_bind_error] at h; exact absurd h (fun x => nomatch x)
          | ok rest =>
              rw [ht, except_bind_ok] at h
              injection h with h
              subst h
              have ih := bootstrapChildEntries_spec tl rest ht
              refine ⟨by simp [objListToList, ih.1], ?_⟩
              intro j hd2 hj
              cases j with
              | zero =>
                  simp only [objListToList, List.get?] at hj
                  injection hj with hj
                  subst hj
                  exact ⟨hs, hh, rfl⟩
              | succ n =>
                  simp only [objListToList, List.get?] at hj
                  obtain ⟨s2, h1, h2⟩ := ih.2 n hd2 hj
                  exact ⟨s2, h1, h2⟩

/-- Claim C6 counterexample: the frozen variant is also a
dual-representation node, yet rendering ITS bootstrap produces no
statement at all: because the frozen class defines the render-function
name as a plain method, the bootstrap generator raises AttributeError, so
for a frozen node with zero children the claimed immediately-invoked
statement (in particular the zero-entry instantiation of the claimed
form) is never produced. -/
theorem c6_counterexample :
    bootstrapRender (.jsFrozenHtmlNode (.jsTextNode "style") (.jsNodeList .nil)
        (.cons "id" (.conv (.jsTextNode "s2")) .nil))
      = .error "AttributeError: \x27method\x27 object has no attribute \x27render\x27"
  ∧ (Except.error "AttributeError: \x27method\x27 object has no attribute \x27render\x27"
        : Except String String)
      ≠ .ok ("(() => \x7b" ++ ("window." ++ jsNameSpace ++ "s2") ++ "=" ++ "\x7b"
          ++ "getElement: () => " ++ "window[\x27" ++ "s2" ++ "\x27],"
          ++ "render: " ++ jsRenderFnSource ++ ","
          ++ "children: [" ++ String.intercalate "," ([] : List String) ++ "],"
          ++ "\x7d;" ++ "\x7d)();") :=
  ⟨rfl, fun h => nomatch h⟩

/-- Claim C6 as amended: the bootstrap script of a NON-FROZEN
dual-representation node is the immediately-invoked assignment of an
object with getElement, render and children onto the namespace handle
(the fixed window prefix concatenated with the identity), and its
children array holds exactly one zero-argument accessor per child, in
child order, each deferring to that child handle; the frozen variant is
excluded, since its bootstrap rendering raises AttributeError instead
(the missing property decorator of the frozen render function, see the
claim C7 theorem). -/
theorem c6_bootstrap (e : Obj) (kids : ObjList) (a : AttrList) (i : String)
    (entries : List String)
    (hi : identityOf a = .ok i) (he : bootstrapChildEntries kids = .ok entries) :
    bootstrapRender (.jsHtmlNode e (.jsNodeList kids) a)
      = .ok ("(() => \x7b" ++ ("window." ++ jsNameSpace ++ i) ++ "=" ++ "\x7b"
          ++ "getElement: () => " ++ "window[\x27" ++ i ++ "\x27],"
          ++ "render: " ++ jsRenderFnSource ++ ","
          ++ "children: [" ++ String.intercalate "," entries ++ "],"
          ++ "\x7d;" ++ "\x7d)();")
  ∧ entries.length = (objListToList kids).length
  ∧ (∀ (j : Nat) (hd : Obj), (objListToList kids).get? j = some hd →
        ∃ hs, jsHandleObj hd = .ok hs ∧ entries.get? j = some ("() => " ++ hs)) := by
  have hspec := bootstrapChildEntries_spec kids entries he
  refine ⟨?_, hspec.1, hspec.2⟩
  have h1 : handleObj (Obj.jsHtmlNode e (.jsNodeList kids) a) none
      = .ok ("window." ++ jsNameSpace ++ i) := by
    unfold handleObj
    rw [show identityObj (Obj.jsHtmlNode e (.jsNodeList kids) a) = identityOf a from rfl,
      hi, except_bind_ok]
  simp only [bootstrapRender, h1, except_bind_ok,
    show identityObj (Obj.jsHtmlNode e (.jsNodeList kids) a) = identityOf a from rfl, hi,
    jsRenderFnAccess, renderObj, iterNodes, he]

/-- Claim C6 witness: a node with identity root and two text children. -/
theorem c6_bootstrap_witness :
    bootstrapRender (.jsHtmlNode (.jsTextNode "div")
        (.jsNodeList (.cons (.jsTextNode "a") (.cons (.jsTextNode "b") .nil)))
        (.cons "id" (.conv (.jsTextNode "root")) .nil))
      = .ok ("(() => \x7b" ++ ("window." ++ jsNameSpace ++ "root") ++ "=" ++ "\x7b"
          ++ "getElement: () => " ++ "window[\x27" ++ "root" ++ "\x27],"
          ++ "render: " ++ jsRenderFnSource ++ ","
          ++ "children: [" ++ String.intercalate ","
              ["() => \x7brender: () => \x27a\x27\x7d",
                "() => \x7brender: () => \x27b\x27\x7d"] ++ "],"
          ++ "\x7d;" ++ "\x7d)();")
  ∧ (["() => \x7brender: () => \x27a\x27\x7d",
        "() => \x7brender: () => \x27b\x27\x7d"] : List String).length
      = (objListToList (.cons (.jsTextNode "a") (.cons (.jsTextNode "b") .nil))).length := by
  have hw := c6_bootstrap (.jsTextNode "div")
    (.cons (.jsTextNode "a") (.cons (.jsTextNode "b") .nil))
    (.cons "id" (.conv (.jsTextNode "root")) .nil) "root"
    ["() => \x7brender: () => \x27a\x27\x7d", "() => \x7brender: () => \x27b\x27\x7d"]
    rfl rfl
  exact ⟨hw.1, hw.2.1⟩

theorem lookup_dictSet_self : ∀ (d : PyDict) (k : String) (v : Value),
    List.lookup k (dictSet d k v) = some v
  | [], k, v => by simp [dictSet, List.lookup]
  | (k0, v0) :: rest, k, v => by
      by_cases h : k0 == k
      · have hk : k0 = k := eq_of_beq h
        subst hk
        simp [dictSet, List.lookup]
      · have hsym : (k == k0) = false := by
          rw [beq_eq_false_iff_ne]
          intro hk
          subst hk
          simp at h
        simp [dictSet, h, List.lookup, hsym, lookup_dictSet_self rest k v]

theorem heapGet_heapSet_self : ∀ (h : Heap) (r : Nat) (d0 d : PyDict),
    heapGet h r = some d0 → heapGet (heapSet h r d) r = some d := by
  intro h
  induction h with
  | nil => intro r d0 d hr; simp [heapGet] at hr
  | cons x t ih =>
      intro r d0 d hr
      cases r with
      | zero => simp [heapGet, heapSet]
      | succ n =>
          simp only [heapGet, heapSet] at hr ⊢
          exact ih n d0 d hr

theorem heapGet_heapSet_ne : ∀ (h : Heap) (r r2 : Nat) (d : PyDict), r2 ≠ r →
    heapGet (heapSet h r d) r2 = heapGet h r2 := by
  intro h
  induction h with
  | nil => intro r r2 d _; cases r <;> rfl
  | cons x t ih =>
      intro r r2 d hne
      cases r with
      | zero =>
          cases r2 with
          | zero => exact absurd rfl hne
          | succ m => rfl
      | succ n =>
          cases r2 with
          | zero => rfl
          | succ m =>
              simp only [heapGet, heapSet]
              exact ih n m d (fun hh => hne (by rw [hh]))

/-- Claim C9: constructing a dual-representation node with a
caller-supplied attribute dict whose id entry is missing or None writes
the converted default token into that very dict: after construction the
same heap reference holds the dict extended with the id entry, every
other reference is untouched, and the caller observes the new key. -/
theorem c9_init_mutates_dict (h : Heap) (r : Nat) (d : PyDict) (token : String)
    (hr : heapGet h r = some d) (hid : dictIdIsNone d = true) :
    jsHtmlNodeInitDictEffect h (some r) token
      = some (heapSet h r (dictSet d "id" (.vObj (.jsTextNode token))),
          dictSet d "id" (.vObj (.jsTextNode token)))
  ∧ heapGet (heapSet h r (dictSet d "id" (.vObj (.jsTextNode token)))) r
      = some (dictSet d "id" (.vObj (.jsTextNode token)))
  ∧ List.lookup "id" (dictSet d "id" (.vObj (.jsTextNode token)))
      = some (.vObj (.jsTextNode token))
  ∧ ∀ r2, r2 ≠ r →
      heapGet (heapSet h r (dictSet d "id" (.vObj (.jsTextNode token)))) r2
        = heapGet h r2 := by
  refine ⟨?_, heapGet_heapSet_self h r d _ hr, lookup_dictSet_self d "id" _,
    fun r2 hne => heapGet_heapSet_ne h r r2 _ hne⟩
  have hstep : jsHtmlNodeInitDictEffect h (some r) token
      = match heapGet h r with
        | none => none
        | some d =>
            let d' := if dictIdIsNone d then dictSet d "id" (.vObj (jsTryFrom (.vStr token))) else d
            some (heapSet h r d', d') := rfl
  rw [hstep, hr]
  simp [hid, jsTryFrom, pyStrValue]

/-- Claim C9 witness: a one-entry caller dict with no id key. -/
theorem c9_init_mutates_dict_witness :
    jsHtmlNodeInitDictEffect [[("class", Value.vStr "x")]] (some 0) "140235"
      = some (heapSet [[("class", Value.vStr "x")]] 0
            (dictSet [("class", Value.vStr "x")] "id" (.vObj (.jsTextNode "140235"))),
          dictSet [("class", Value.vStr "x")] "id" (.vObj (.jsTextNode "140235")))
  ∧ List.lookup "id"
        (dictSet [("class", Value.vStr "x")] "id" (.vObj (.jsTextNode "140235")))
      = some (.vObj (.jsTextNode "140235")) := by
  have hw := c9_init_mutates_dict [[("class", Value.vStr "x")]] 0
    [("class", Value.vStr "x")] "140235" rfl rfl
  exact ⟨hw.1, hw.2.2.1⟩
